import Mathlib

/-!
Verification of the nitrocli command dispatch layer (src/nitrocli/src/options.rs).

The file shallowly embeds the command representation, the per-command
handlers and the top-level argument parsing of options.rs.  External
collaborators that are not part of src/ (the crate error type, the
argparse library and the device-operation module `commands`) are modelled
from the spec, as noted on each definition.
-/

/-- Modelled from the spec: the crate error type (crate::error::Error) is not
under src/.  The spec requires a single uniform "argument parsing failed"
error (§7 taxonomy (b)) and opaque device-operation errors passed through
verbatim (taxonomy (c)); only `Error::ArgparseError` is referenced by
options.rs. -/
inductive Error where
  | ArgparseError : Error
  | DeviceError : String → Error
deriving DecidableEq, Repr

deriving instance DecidableEq for Except

/-- Result of one invocation of an argparse sub-parser: the Rust library
returns `Result<(), i32>` where `Ok(())` means parsed successfully,
`Err(0)` means help text was printed, and any other `Err` code means the
parse failed. -/
abbrev SubparseResult := Except Int Unit

/-- Modelled from the spec: the argparse sub-parser collaborator (§6).
Given a description string and an argument list it returns parsed-ok,
help-shown (`Err 0`) or a parse error (`Err code`, `code ≠ 0`).  The
output and error sinks of the Rust call do not affect the outcome and are
omitted. -/
abbrev Subparser := String → List String → SubparseResult

/-- Embedding of the `parse_args!` macro of options.rs: given the
sub-parser result it yields `some r` when the enclosing handler returns
early with `r` (help printed gives `Ok(())`, any other failure gives
`Err(Error::ArgparseError)`), and `none` when parsing succeeded and the
handler proceeds. -/
def parse_args (r : SubparseResult) : Option (Except Error Unit) :=
  match r with
  | Except.ok _ => none
  | Except.error err => if err = 0 then some (Except.ok ()) else some (Except.error Error.ArgparseError)

/-- Modelled from the spec: the device-operation collaborator (the
`commands` module, §6): four zero-argument synchronous operations, each
returning success or a domain-specific failure. -/
structure Device where
  status : Except Error Unit
  «open» : Except Error Unit
  close : Except Error Unit
  clear : Except Error Unit

/-- Observable record of which device operation a handler invoked, used to
state "invokes no device operation" and "exactly one call" properties. -/
inductive DeviceCall where
  | statusCall : DeviceCall
  | openCall : DeviceCall
  | closeCall : DeviceCall
  | clearCall : DeviceCall
deriving DecidableEq, Repr

/-- A top-level command for nitrocli (enum Command of options.rs). -/
inductive Command where
  | Clear : Command
  | Close : Command
  | Open : Command
  | Status : Command
deriving DecidableEq, Repr

/-- The Display implementation for Command in options.rs. -/
def Command.toString (c : Command) : String :=
  match c with
  | Command.Clear => "clear"
  | Command.Close => "close"
  | Command.Open => "open"
  | Command.Status => "status"

/-- The FromStr implementation for Command in options.rs: an exact,
case-sensitive match on the four command names (the Rust `match` on a
string slice is a sequence of equality tests); `none` stands for
`Err(())`. -/
def Command.from_str (s : String) : Option Command :=
  if s = "clear" then some Command.Clear
  else if s = "close" then some Command.Close
  else if s = "open" then some Command.Open
  else if s = "status" then some Command.Status
  else none

/-- Handler `status` of options.rs: builds a sub-parser with its
description, runs `parse_args!`, and on success calls `commands::status()`.
The second component records the device calls made. -/
def status (sp : Subparser) (dev : Device) (args : List String) :
    Except Error Unit × List DeviceCall :=
  match parse_args (sp "Print the status of the connected Nitrokey Storage" args) with
  | some r => (r, [])
  | none => (dev.status, [DeviceCall.statusCall])

/-- Handler `open` of options.rs: builds a sub-parser with its
description, runs `parse_args!`, and on success calls `commands::open()`. -/
def «open» (sp : Subparser) (dev : Device) (args : List String) :
    Except Error Unit × List DeviceCall :=
  match parse_args (sp "Opens the encrypted volume on a Nitrokey Storage" args) with
  | some r => (r, [])
  | none => (dev.open, [DeviceCall.openCall])

/-- Handler `close` of options.rs: builds a sub-parser with its
description, runs `parse_args!`, and on success calls `commands::close()`. -/
def close (sp : Subparser) (dev : Device) (args : List String) :
    Except Error Unit × List DeviceCall :=
  match parse_args (sp "Closes the encrypted volume on a Nitrokey Storage" args) with
  | some r => (r, [])
  | none => (dev.close, [DeviceCall.closeCall])

/-- Handler `clear` of options.rs: builds a sub-parser with its
description, runs `parse_args!`, and on success calls `commands::clear()`. -/
def clear (sp : Subparser) (dev : Device) (args : List String) :
    Except Error Unit × List DeviceCall :=
  match parse_args (sp "Clears the cached passphrase" args) with
  | some r => (r, [])
  | none => (dev.clear, [DeviceCall.clearCall])

/-- Command::execute of options.rs: exhaustive match dispatching each
variant to its handler. -/
def Command.execute (sp : Subparser) (dev : Device) (c : Command) (args : List String) :
    Except Error Unit × List DeviceCall :=
  match c with
  | Command.Clear => clear sp dev args
  | Command.Close => close sp dev args
  | Command.Open => «open» sp dev args
  | Command.Status => status sp dev args

/-- The description string each handler passes to its sub-parser, read off
from the four handlers of options.rs. -/
def Command.description (c : Command) : String :=
  match c with
  | Command.Clear => "Clears the cached passphrase"
  | Command.Close => "Closes the encrypted volume on a Nitrokey Storage"
  | Command.Open => "Opens the encrypted volume on a Nitrokey Storage"
  | Command.Status => "Print the status of the connected Nitrokey Storage"

/-- The device operation each variant is specified to invoke (§4.1). -/
def deviceOpOf (dev : Device) (c : Command) : Except Error Unit :=
  match c with
  | Command.Clear => dev.clear
  | Command.Close => dev.close
  | Command.Open => dev.open
  | Command.Status => dev.status

/-- The device call each variant is specified to record. -/
def Command.deviceCall (c : Command) : DeviceCall :=
  match c with
  | Command.Clear => DeviceCall.clearCall
  | Command.Close => DeviceCall.closeCall
  | Command.Open => DeviceCall.openCall
  | Command.Status => DeviceCall.statusCall

/-- parse_arguments of options.rs on a given process argument list.  The
top-level argparse call is modelled from the spec (§4.2): the first token
is a required positional that must resolve via FromStr, anything else
makes `parse_args_or_exit` terminate the process (modelled as `none`),
and with stop-on-first-argument semantics all later tokens are collected
verbatim.  On success the source prepends `format!("nitrocli {}", command)`
to the collected arguments. -/
def parse_arguments (argv : List String) : Option (Command × List String) :=
  match argv with
  | [] => none
  | c :: rest =>
    match Command.from_str c with
    | none => none
    | some command => some (command, ("nitrocli " ++ Command.toString command) :: rest)

/-- Concrete sub-parser used in witnesses: following the argparse
convention the first token is the program name; among the rest it reports
help on `-h` or `--help`, a parse error with the conventional argparse
code 2 on any other token starting with a dash, and success otherwise. -/
def spExample : Subparser := fun _ args =>
  let rest := args.drop 1
  if rest.contains "-h" || rest.contains "--help" then Except.error 0
  else if rest.any (fun a => a.data.head? == some (Char.ofNat 45)) then Except.error 2
  else Except.ok ()

/-- Concrete device used in witnesses: every operation succeeds. -/
def devOkExample : Device :=
  { status := Except.ok (), «open» := Except.ok (), close := Except.ok (), clear := Except.ok () }

/-- Concrete device used in witnesses: the close operation fails with an
opaque device error, the others succeed. -/
def devErrExample : Device :=
  { status := Except.ok (), «open» := Except.ok ()
    close := Except.error (Error.DeviceError "device busy"), clear := Except.ok () }

/-- Every run of Command.execute falls into exactly one of three cases,
according to the sub-parser outcome on the handler's description and the
given arguments: successful parse (device operation invoked), help printed
(overall success, no device call), or parse failure (uniform argparse
error, no device call). -/
theorem execute_cases (sp : Subparser) (dev : Device) (c : Command) (args : List String) :
    (sp (Command.description c) args = Except.ok () ∧
      Command.execute sp dev c args = (deviceOpOf dev c, [Command.deviceCall c])) ∨
    (sp (Command.description c) args = Except.error 0 ∧
      Command.execute sp dev c args = (Except.ok (), [])) ∨
    (∃ n, n ≠ 0 ∧ sp (Command.description c) args = Except.error n ∧
      Command.execute sp dev c args = (Except.error Error.ArgparseError, [])) := by
  rcases h : sp (Command.description c) args with n | u
  · by_cases hn : n = 0
    · subst hn
      refine Or.inr (Or.inl ⟨rfl, ?_⟩)
      cases c <;> simp only [Command.description] at h <;>
        simp [Command.execute, clear, close, «open», status, parse_args, h]
    · refine Or.inr (Or.inr ⟨n, hn, rfl, ?_⟩)
      cases c <;> simp only [Command.description] at h <;>
        simp [Command.execute, clear, close, «open», status, parse_args, h, hn]
  · cases u
    refine Or.inl ⟨rfl, ?_⟩
    cases c <;> simp only [Command.description] at h <;>
      simp [Command.execute, clear, close, «open», status, parse_args, h,
        deviceOpOf, Command.deviceCall]

/-- C1: for every Command variant and argument list, execute routes to
exactly one handler, the one of the matching device operation: the result
does not depend on any other variant's device operation, the call trace
never contains another variant's device call, and whenever a device call
happens it is exactly one call to the matching operation whose result is
returned. -/
theorem c1_execute_routes_to_matching_handler (sp : Subparser) (dev dev' : Device)
    (c : Command) (args : List String)
    (hsame : deviceOpOf dev c = deviceOpOf dev' c) :
    Command.execute sp dev c args = Command.execute sp dev' c args ∧
    (∀ x ∈ (Command.execute sp dev c args).2, x = Command.deviceCall c) ∧
    ((Command.execute sp dev c args).2 ≠ [] →
      Command.execute sp dev c args = (deviceOpOf dev c, [Command.deviceCall c])) := by
  rcases execute_cases sp dev c args with ⟨h, he⟩ | ⟨h, he⟩ | ⟨n, hn, h, he⟩ <;>
    rcases execute_cases sp dev' c args with ⟨h', he'⟩ | ⟨h', he'⟩ | ⟨n', hn', h', he'⟩ <;>
    simp_all

/-- Witness for c1_execute_routes_to_matching_handler at concrete inputs:
two devices agreeing on the status operation, the Status command and the
argument list produced by parse_arguments. -/
theorem c1_witness :
    deviceOpOf devOkExample Command.Status = deviceOpOf devErrExample Command.Status ∧
    (Command.execute spExample devOkExample Command.Status ["nitrocli status"] =
        Command.execute spExample devErrExample Command.Status ["nitrocli status"] ∧
      (∀ x ∈ (Command.execute spExample devOkExample Command.Status ["nitrocli status"]).2,
        x = Command.deviceCall Command.Status) ∧
      ((Command.execute spExample devOkExample Command.Status ["nitrocli status"]).2 ≠ [] →
        Command.execute spExample devOkExample Command.Status ["nitrocli status"] =
          (deviceOpOf devOkExample Command.Status, [Command.deviceCall Command.Status]))) :=
  ⟨by decide, c1_execute_routes_to_matching_handler spExample devOkExample devErrExample
    Command.Status ["nitrocli status"] (by decide)⟩

/-- C2: for every command handler and argument list, if the sub-parser
reports the distinguished help-was-printed condition (error code 0), the
handler returns overall success and invokes no device operation. -/
theorem c2_help_printed_returns_success (sp : Subparser) (dev : Device)
    (c : Command) (args : List String)
    (h : sp (Command.description c) args = Except.error 0) :
    Command.execute sp dev c args = (Except.ok (), []) := by
  cases c <;> simp only [Command.description] at h <;>
    simp [Command.execute, clear, close, «open», status, parse_args, h]

/-- Witness for c2_help_printed_returns_success: the clear command with a
help flag. -/
theorem c2_witness :
    spExample (Command.description Command.Clear) ["nitrocli clear", "-h"] = Except.error 0 ∧
    Command.execute spExample devErrExample Command.Clear ["nitrocli clear", "-h"] =
      (Except.ok (), []) :=
  ⟨by decide, c2_help_printed_returns_success spExample devErrExample Command.Clear
    ["nitrocli clear", "-h"] (by decide)⟩

/-- C3: for every command handler and argument list, if the sub-parser
reports any failure other than help-was-printed (a nonzero error code),
the handler returns the single uniform argument-parsing-failed error and
invokes no device operation. -/
theorem c3_parse_failure_uniform_error (sp : Subparser) (dev : Device)
    (c : Command) (args : List String) (n : Int)
    (hn : n ≠ 0) (h : sp (Command.description c) args = Except.error n) :
    Command.execute sp dev c args = (Except.error Error.ArgparseError, []) := by
  cases c <;> simp only [Command.description] at h <;>
    simp [Command.execute, clear, close, «open», status, parse_args, h, hn]

/-- Witness for c3_parse_failure_uniform_error: the open command with an
unrecognized flag. -/
theorem c3_witness :
    (2 : Int) ≠ 0 ∧
    spExample (Command.description Command.Open) ["nitrocli open", "--bogus"] = Except.error 2 ∧
    Command.execute spExample devErrExample Command.Open ["nitrocli open", "--bogus"] =
      (Except.error Error.ArgparseError, []) :=
  ⟨by decide, by decide, c3_parse_failure_uniform_error spExample devErrExample Command.Open
    ["nitrocli open", "--bogus"] 2 (by decide) (by decide)⟩

/-- C7: for every argument list on which the sub-parse succeeds,
dispatching a command invokes exactly one call to the matching
device-operation collaborator and returns that collaborator's result
unmodified, whatever it is. -/
theorem c7_success_invokes_one_device_call (sp : Subparser) (dev : Device)
    (c : Command) (args : List String)
    (h : sp (Command.description c) args = Except.ok ()) :
    Command.execute sp dev c args = (deviceOpOf dev c, [Command.deviceCall c]) := by
  cases c <;> simp only [Command.description] at h <;>
    simp [Command.execute, clear, close, «open», status, parse_args, h,
      deviceOpOf, Command.deviceCall]

/-- Witness for c7_success_invokes_one_device_call: the close command with
no extra arguments, against a device whose close operation fails with an
opaque error, which is propagated verbatim together with exactly one close
call. -/
theorem c7_witness :
    spExample (Command.description Command.Close) ["nitrocli close"] = Except.ok () ∧
    Command.execute spExample devErrExample Command.Close ["nitrocli close"] =
      (deviceOpOf devErrExample Command.Close, [Command.deviceCall Command.Close]) :=
  ⟨by decide, c7_success_invokes_one_device_call spExample devErrExample Command.Close
    ["nitrocli close"] (by decide)⟩

/-- C4: name resolution round-trips in both directions: each of the four
names parses to the matching Command and displaying it back yields the
original string, and every Command parses back from its canonical name,
so names and variants are in 1:1 correspondence. -/
theorem c4_name_resolution_round_trip :
    (Command.from_str "clear" = some Command.Clear ∧
      Command.from_str "close" = some Command.Close ∧
      Command.from_str "open" = some Command.Open ∧
      Command.from_str "status" = some Command.Status) ∧
    ((Command.from_str "clear").map Command.toString = some "clear" ∧
      (Command.from_str "close").map Command.toString = some "close" ∧
      (Command.from_str "open").map Command.toString = some "open" ∧
      (Command.from_str "status").map Command.toString = some "status") ∧
    (∀ c : Command, Command.from_str (Command.toString c) = some c) := by
  refine ⟨by decide, by decide, ?_⟩
  intro c
  cases c <;> decide

/-- C5: every string outside the exact, case-sensitive set of the four
command names fails to resolve: from_str yields none. -/
theorem c5_unrecognized_name_not_recognized (x : String)
    (h1 : x ≠ "clear") (h2 : x ≠ "close") (h3 : x ≠ "open") (h4 : x ≠ "status") :
    Command.from_str x = none := by
  simp [Command.from_str, h1, h2, h3, h4]

/-- Witness for c5_unrecognized_name_not_recognized at the case variant
"Clear", which differs from every canonical name. -/
theorem c5_witness :
    ("Clear" ≠ "clear" ∧ "Clear" ≠ "close" ∧ "Clear" ≠ "open" ∧ "Clear" ≠ "status") ∧
    Command.from_str "Clear" = none :=
  ⟨by decide, c5_unrecognized_name_not_recognized "Clear"
    (by decide) (by decide) (by decide) (by decide)⟩

/-- C6: parse_arguments prepends the synthesized invocation-name token to
the leftover arguments before returning: on input tokens consisting of
just "status" it returns the Status command with the single token
"nitrocli status", and in general a recognized command word followed by
any leftover tokens yields the synthesized token followed by those tokens
verbatim. -/
theorem c6_prepends_invocation_token :
    parse_arguments ["status"] = some (Command.Status, ["nitrocli status"]) ∧
    ∀ c rest cmd, Command.from_str c = some cmd →
      parse_arguments (c :: rest) =
        some (cmd, ("nitrocli " ++ Command.toString cmd) :: rest) := by
  refine ⟨by decide, ?_⟩
  intro c rest cmd h
  simp [parse_arguments, h]

/-- Witness for c6_prepends_invocation_token at the command word "close"
followed by the leftover token "--help". -/
theorem c6_witness :
    Command.from_str "close" = some Command.Close ∧
    parse_arguments ["close", "--help"] =
      some (Command.Close, ("nitrocli " ++ Command.toString Command.Close) :: ["--help"]) :=
  ⟨by decide, c6_prepends_invocation_token.2 "close" ["--help"] Command.Close (by decide)⟩

/-- C8: command resolution is total and pure: every input string gets a
definite result, either none or the matching Command whose canonical name
is the input itself, and equal inputs always yield equal results, with no
dependence on hidden state. -/
theorem c8_resolution_total_and_pure :
    (∀ s : String, Command.from_str s = none ∨
      ∃ c, Command.from_str s = some c ∧ Command.toString c = s) ∧
    (∀ s t : String, s = t → Command.from_str s = Command.from_str t) := by
  constructor
  · intro s
    by_cases h1 : s = "clear"
    · exact Or.inr ⟨Command.Clear, by simp [Command.from_str, h1], by simp [Command.toString, h1]⟩
    by_cases h2 : s = "close"
    · exact Or.inr ⟨Command.Close, by simp [Command.from_str, h1, h2], by simp [Command.toString, h2]⟩
    by_cases h3 : s = "open"
    · exact Or.inr ⟨Command.Open, by simp [Command.from_str, h1, h2, h3], by simp [Command.toString, h3]⟩
    by_cases h4 : s = "status"
    · exact Or.inr ⟨Command.Status, by simp [Command.from_str, h1, h2, h3, h4], by simp [Command.toString, h4]⟩
    exact Or.inl (by simp [Command.from_str, h1, h2, h3, h4])
  · intro s t h
    rw [h]

/-- Witness for c8_resolution_total_and_pure: resolving "open" twice gives
equal results. -/
theorem c8_witness :
    ("open" : String) = "open" ∧ Command.from_str "open" = Command.from_str "open" :=
  ⟨rfl, c8_resolution_total_and_pure.2 "open" "open" rfl⟩

/-- C9: the top-level command token is required: on an empty token list or
an unrecognized first token, parse_arguments does not return normally
(the process exits, modelled as none), and whenever it does return, the
returned command comes from resolving the first token, so the internal
Status default is never surfaced. -/
theorem c9_command_token_required :
    parse_arguments [] = none ∧
    (∀ c rest, Command.from_str c = none → parse_arguments (c :: rest) = none) ∧
    (∀ argv cmd outArgs, parse_arguments argv = some (cmd, outArgs) →
      ∃ c tail, argv = c :: tail ∧ Command.from_str c = some cmd) := by
  refine ⟨rfl, ?_, ?_⟩
  · intro c rest h
    simp [parse_arguments, h]
  · intro argv cmd outArgs h
    cases argv with
    | nil => simp [parse_arguments] at h
    | cons c tail =>
      cases hc : Command.from_str c with
      | none => simp [parse_arguments, hc] at h
      | some cmd2 =>
        refine ⟨c, tail, rfl, ?_⟩
        simp [parse_arguments, hc] at h
        rw [hc, h.1]

/-- Witness for c9_command_token_required: the unrecognized token "bogus"
makes parse_arguments abort. -/
theorem c9_witness :
    Command.from_str "bogus" = none ∧ parse_arguments ["bogus"] = none :=
  ⟨by decide, c9_command_token_required.2.1 "bogus" [] (by decide)⟩

/-- C10: whenever parse_arguments returns normally, the returned argument
list is non-empty, its first element is exactly "nitrocli " followed by
the returned command's canonical name, and the remaining elements are the
original leftover tokens in their original order. -/
theorem c10_returned_args_shape (argv : List String) (cmd : Command) (outArgs : List String)
    (h : parse_arguments argv = some (cmd, outArgs)) :
    outArgs ≠ [] ∧ outArgs = ("nitrocli " ++ Command.toString cmd) :: argv.tail := by
  cases argv with
  | nil => simp [parse_arguments] at h
  | cons c tail =>
    cases hc : Command.from_str c with
    | none => simp [parse_arguments, hc] at h
    | some cmd2 =>
      simp [parse_arguments, hc] at h
      obtain ⟨h1, h2⟩ := h
      constructor
      · rw [← h2]
        simp
      · rw [← h2, h1]
        simp

/-- Witness for c10_returned_args_shape on input tokens "open", "x", "y". -/
theorem c10_witness :
    parse_arguments ["open", "x", "y"] = some (Command.Open, ["nitrocli open", "x", "y"]) ∧
    (["nitrocli open", "x", "y"] ≠ ([] : List String) ∧
      ["nitrocli open", "x", "y"] =
        ("nitrocli " ++ Command.toString Command.Open) :: (["open", "x", "y"] : List String).tail) :=
  ⟨by decide, c10_returned_args_shape ["open", "x", "y"] Command.Open
    ["nitrocli open", "x", "y"] (by decide)⟩
